import Mathlib

/-!
Verification of the client-side session and command-dispatch logic of the
HID control panel (`src/main.ts`).

The TypeScript front end keeps four pieces of mutable session state:
the scanned device catalog (`scannedDevices`), the current selection
(`selectedDevicePath`), the set of device paths with a started backend
listener (`activeListeners`), and the append-only log rendered in the
monitor pane.  The three user actions (`scanBtn.onclick`,
the per-item click handler installed by `renderDeviceList`, and
`sendBtn.onclick`) together with the push-event handler registered by
`initEventListener` are embedded below as pure functions on an `AppState`.
Backend calls (`invoke("scan_hid_devices")`, `invoke("start_listening")`,
`invoke("send_hid_command")`) are modelled by passing their outcomes as
`Except` arguments, and the send dispatch additionally returns the ordered
trace of log appends and backend invocations it performs, so that ordering
properties (a log entry written before any backend call, a send aborted
before the write) are expressible.

Display-only details (colors, the wall-clock timestamp prepended by
`addLog`, DOM structure, the `selectedTag` text) are not modelled; a log
entry is its category and message.
-/

/-- Mirrors the `HidDevice` interface of `src/main.ts`. -/
structure HidDevice where
  path : String
  vendor_id : String
  product_id : String
  product_string : Option String
  manufacturer_string : Option String
  usage_page : Nat
  interface_number : Int
deriving Repr, DecidableEq

/-- The four log categories accepted by `addLog`. -/
inductive LogType where
  | info
  | incoming
  | outgoing
  | error
deriving Repr, DecidableEq

/-- One entry of the monitor log: category and message (the timestamp the
source prepends is wall-clock display formatting and is not modelled). -/
structure LogEntry where
  category : LogType
  message : String
deriving Repr, DecidableEq

/-- The mutable session state of `src/main.ts`: `scannedDevices`,
`selectedDevicePath`, the `activeListeners` set (kept as a list in
insertion order) and the log pane contents. -/
structure AppState where
  scannedDevices : List HidDevice
  selectedDevicePath : Option String
  activeListeners : List String
  log : List LogEntry
deriving Repr, DecidableEq

/-- A backend invocation made by the send dispatch. -/
inductive BackendCall where
  | startListening (path : String)
  | sendHidCommand (path : String) (data : List (Option Int))
deriving Repr, DecidableEq

/-- One step of the send dispatch's observable trace: a log append or a
backend invocation, in program order. -/
inductive Ev where
  | logE (category : LogType) (message : String)
  | callE (c : BackendCall)
deriving Repr, DecidableEq

/-- The backend calls of a trace, in order. -/
def callsOf (evs : List Ev) : List BackendCall :=
  evs.filterMap fun e =>
    match e with
    | Ev.callE c => some c
    | _ => none

/-- The log entries of a trace, in order. -/
def logsOf (evs : List Ev) : List LogEntry :=
  evs.filterMap fun e =>
    match e with
    | Ev.logE c m => some ⟨c, m⟩
    | _ => none

/-- `addLog(message, type)`: appends one categorized entry to the log. -/
def addLog (message : String) (type : LogType) (s : AppState) : AppState :=
  { s with log := s.log ++ [⟨type, message⟩] }

/-- `activeListeners.add(path)` (JS `Set.add`: no effect when present). -/
def setAdd (path : String) (s : AppState) : AppState :=
  { s with activeListeners :=
      if path ∈ s.activeListeners then s.activeListeners
      else s.activeListeners ++ [path] }

/-- `activeListeners.delete(path)` (JS `Set.delete`). -/
def setDelete (path : String) (s : AppState) : AppState :=
  { s with activeListeners := s.activeListeners.filter (fun q => q ≠ path) }

/-- JS `String.prototype.trim()`: strip leading and trailing whitespace. -/
def trimStr (s : String) : String :=
  String.mk (((s.data.dropWhile Char.isWhitespace).reverse.dropWhile
    Char.isWhitespace).reverse)

/-- Splitting on runs of whitespace, accumulating the current token in
reverse.  On a trimmed string this matches JS `split(/\s+/)`, which is the
only way the source uses it (`hexCmd` is trimmed and nonempty). -/
def tokenizeAux : List Char → List Char → List String
  | [], acc => if acc.isEmpty then [] else [String.mk acc.reverse]
  | c :: cs, acc =>
    if c.isWhitespace then
      if acc.isEmpty then tokenizeAux cs []
      else String.mk acc.reverse :: tokenizeAux cs []
    else tokenizeAux cs (c :: acc)

/-- `text.split(/\s+/)` on a trimmed string. -/
def tokenize (cs : List Char) : List String := tokenizeAux cs []

/-- Value of one hexadecimal digit, if the character is one. -/
def hexDigitVal? (c : Char) : Option Nat :=
  if '0' ≤ c ∧ c ≤ '9' then some (c.toNat - '0'.toNat)
  else if 'a' ≤ c ∧ c ≤ 'f' then some (c.toNat - 'a'.toNat + 10)
  else if 'A' ≤ c ∧ c ≤ 'F' then some (c.toNat - 'A'.toNat + 10)
  else none

/-- JS `parseInt(token, 16)`: skip leading whitespace, optional sign,
optional `0x`/`0X`, then the longest run of hex digits; `none` models the
`NaN` produced when no digit is found. -/
def parseIntHex (token : String) : Option Int :=
  let cs0 := token.data.dropWhile Char.isWhitespace
  let signNeg : Bool :=
    match cs0 with
    | '-' :: _ => true
    | _ => false
  let cs1 :=
    match cs0 with
    | '-' :: rest => rest
    | '+' :: rest => rest
    | _ => cs0
  let cs2 :=
    match cs1 with
    | '0' :: 'x' :: rest => rest
    | '0' :: 'X' :: rest => rest
    | _ => cs1
  let digits := cs2.takeWhile (fun c => (hexDigitVal? c).isSome)
  if digits.isEmpty then none
  else
    let v : Nat := digits.foldl (fun a c => 16 * a + (hexDigitVal? c).getD 0) 0
    some (if signNeg then -(v : Int) else (v : Int))

/-- `hexCmd.split(/\s+/).map(h => parseInt(h, 16))` of the send handler:
the command frame, with `none` standing for a `NaN` entry. -/
def cmdBytes (t : String) : List (Option Int) :=
  (tokenize t.data).map parseIntHex

/-- `b.toString(16).toUpperCase().padStart(2, '0')`: one payload byte as
upper-case hexadecimal, left-padded to two digits. -/
def byteHexUpper (b : Nat) : String :=
  let hx := String.mk ((Nat.toDigits 16 b).map Char.toUpper)
  if hx.length < 2 then String.mk (List.replicate (2 - hx.length) '0' ++ hx.data)
  else hx

/-- `.join(' ')` over a mapped list of strings. -/
def joinSpace : List String → String
  | [] => ""
  | [x] => x
  | x :: y :: rest => x ++ " " ++ joinSpace (y :: rest)

/-- `bytes.map(b => b.toString(16).toUpperCase().padStart(2,'0')).join(' ')`:
the hex rendering used for both the async `hid-data` payloads and the
synchronous `[RESULT]` response. -/
def formatHex (bytes : List Nat) : String :=
  joinSpace (bytes.map byteHexUpper)

/-- The `hid-data` push-event handler registered by `initEventListener`:
formats the payload and appends one `incoming` entry. -/
def hidDataHandler (payload : List Nat) (s : AppState) : AppState :=
  addLog ("[ASYNC IN] " ++ formatHex payload) LogType.incoming s

/-- `scanBtn.onclick`: logs the scan attempt, then on success replaces the
catalog wholesale and logs the count; on failure only logs the error.
`result` is the outcome of `invoke("scan_hid_devices")`. -/
def scanBtnClick (result : Except String (List HidDevice)) (s : AppState) :
    AppState :=
  let s1 := addLog "Scanning HID bus..." LogType.info s
  match result with
  | Except.ok devs =>
    let s2 := { s1 with scannedDevices := devs }
    addLog ("Found " ++ toString devs.length ++ " devices.") LogType.info s2
  | Except.error e => addLog ("Scan Error: " ++ e) LogType.error s1

/-- The click handler installed on a device item by `renderDeviceList`:
`selectedDevicePath = item.dataset.path || null`, then, if a device with
that path is found in the catalog, an info entry is logged. -/
def deviceItemClick (path : String) (s : AppState) : AppState :=
  let sel : Option String := if path = "" then none else some path
  let s1 := { s with selectedDevicePath := sel }
  match s1.scannedDevices.find? (fun d => sel == some d.path) with
  | some device =>
    addLog ("Device selected. Interface: " ++ toString device.interface_number)
      LogType.info s1
  | none => s1

/-- The tail of the send dispatch after the listener is ensured: the
`invoke("send_hid_command")` call, then on a non-empty response a
`[RESULT]` info entry, and on failure the catch block (error entry and
`activeListeners.delete`). -/
def sendPhase (sendRes : Except String (List Nat)) (path : String)
    (cmdArray : List (Option Int)) (s : AppState) (evs : List Ev) :
    AppState × List Ev :=
  let evs1 := evs ++ [Ev.callE (BackendCall.sendHidCommand path cmdArray)]
  match sendRes with
  | Except.ok response =>
    if response.length > 0 then
      let msg := "[RESULT] " ++ formatHex response
      (addLog msg LogType.info s, evs1 ++ [Ev.logE LogType.info msg])
    else (s, evs1)
  | Except.error e =>
    let s1 := addLog ("Communication Failure: " ++ e) LogType.error s
    (setDelete path s1, evs1 ++ [Ev.logE LogType.error ("Communication Failure: " ++ e)])

/-- `sendBtn.onclick`: reject with an error entry when nothing is
selected; return silently when the trimmed command text is empty;
otherwise log `[OUT]`, start the listener if the path is not yet in
`activeListeners` (aborting through the catch block when that invoke
fails), then run the command send.  `startRes` and `sendRes` are the
outcomes of the two backend invokes; the returned trace records log
appends and backend calls in program order. -/
def sendBtnClick (startRes : Except String Unit)
    (sendRes : Except String (List Nat)) (input : String) (s : AppState) :
    AppState × List Ev :=
  match s.selectedDevicePath with
  | none =>
    (addLog "Error: No device selected." LogType.error s,
     [Ev.logE LogType.error "Error: No device selected."])
  | some path =>
    let hexCmd := trimStr input
    if hexCmd = "" then (s, [])
    else
      let cmdArray := cmdBytes hexCmd
      let outMsg := "[OUT] " ++ hexCmd
      let s1 := addLog outMsg LogType.outgoing s
      if path ∈ s1.activeListeners then
        sendPhase sendRes path cmdArray s1 [Ev.logE LogType.outgoing outMsg]
      else
        let sysMsg := "[SYS] Starting background worker for current OS..."
        let s2 := addLog sysMsg LogType.info s1
        let evs := [Ev.logE LogType.outgoing outMsg, Ev.logE LogType.info sysMsg,
          Ev.callE (BackendCall.startListening path)]
        match startRes with
        | Except.error e =>
          let s3 := addLog ("Communication Failure: " ++ e) LogType.error s2
          (setDelete path s3,
           evs ++ [Ev.logE LogType.error ("Communication Failure: " ++ e)])
        | Except.ok _ => sendPhase sendRes path cmdArray (setAdd path s2) evs

@[simp]
lemma addLog_scannedDevices (m : String) (t : LogType) (s : AppState) :
    (addLog m t s).scannedDevices = s.scannedDevices := rfl

@[simp]
lemma addLog_selectedDevicePath (m : String) (t : LogType) (s : AppState) :
    (addLog m t s).selectedDevicePath = s.selectedDevicePath := rfl

@[simp]
lemma addLog_activeListeners (m : String) (t : LogType) (s : AppState) :
    (addLog m t s).activeListeners = s.activeListeners := rfl

@[simp]
lemma addLog_log (m : String) (t : LogType) (s : AppState) :
    (addLog m t s).log = s.log ++ [⟨t, m⟩] := rfl

@[simp]
lemma setAdd_selectedDevicePath (p : String) (s : AppState) :
    (setAdd p s).selectedDevicePath = s.selectedDevicePath := rfl

@[simp]
lemma setAdd_scannedDevices (p : String) (s : AppState) :
    (setAdd p s).scannedDevices = s.scannedDevices := rfl

@[simp]
lemma setAdd_log (p : String) (s : AppState) : (setAdd p s).log = s.log := rfl

lemma setAdd_activeListeners (p : String) (s : AppState) :
    (setAdd p s).activeListeners =
      if p ∈ s.activeListeners then s.activeListeners
      else s.activeListeners ++ [p] := rfl

@[simp]
lemma mem_setAdd (p : String) (s : AppState) :
    p ∈ (setAdd p s).activeListeners := by
  rw [setAdd_activeListeners]
  split
  · assumption
  · simp

@[simp]
lemma setDelete_selectedDevicePath (p : String) (s : AppState) :
    (setDelete p s).selectedDevicePath = s.selectedDevicePath := rfl

@[simp]
lemma setDelete_scannedDevices (p : String) (s : AppState) :
    (setDelete p s).scannedDevices = s.scannedDevices := rfl

@[simp]
lemma setDelete_log (p : String) (s : AppState) : (setDelete p s).log = s.log := rfl

@[simp]
lemma not_mem_setDelete (p : String) (s : AppState) :
    p ∉ (setDelete p s).activeListeners := by
  simp [setDelete]

@[simp]
lemma callsOf_nil : callsOf [] = [] := rfl

@[simp]
lemma callsOf_cons_log (c : LogType) (m : String) (evs : List Ev) :
    callsOf (Ev.logE c m :: evs) = callsOf evs := rfl

@[simp]
lemma callsOf_cons_call (c : BackendCall) (evs : List Ev) :
    callsOf (Ev.callE c :: evs) = c :: callsOf evs := rfl

@[simp]
lemma callsOf_append (a b : List Ev) :
    callsOf (a ++ b) = callsOf a ++ callsOf b := by
  simp [callsOf]

@[simp]
lemma logsOf_nil : logsOf [] = [] := rfl

@[simp]
lemma logsOf_cons_log (c : LogType) (m : String) (evs : List Ev) :
    logsOf (Ev.logE c m :: evs) = LogEntry.mk c m :: logsOf evs := rfl

@[simp]
lemma logsOf_cons_call (c : BackendCall) (evs : List Ev) :
    logsOf (Ev.callE c :: evs) = logsOf evs := rfl

@[simp]
lemma logsOf_append (a b : List Ev) :
    logsOf (a ++ b) = logsOf a ++ logsOf b := by
  simp [logsOf]

@[simp]
lemma sendPhase_selectedDevicePath (r : Except String (List Nat)) (p : String)
    (a : List (Option Int)) (s : AppState) (evs : List Ev) :
    (sendPhase r p a s evs).1.selectedDevicePath = s.selectedDevicePath := by
  cases r with
  | ok resp =>
    by_cases h : 0 < resp.length <;> simp [sendPhase, h]
  | error e => simp [sendPhase]

@[simp]
lemma sendPhase_scannedDevices (r : Except String (List Nat)) (p : String)
    (a : List (Option Int)) (s : AppState) (evs : List Ev) :
    (sendPhase r p a s evs).1.scannedDevices = s.scannedDevices := by
  cases r with
  | ok resp =>
    by_cases h : 0 < resp.length <;> simp [sendPhase, h]
  | error e => simp [sendPhase]

lemma sendPhase_activeListeners_ok (resp : List Nat) (p : String)
    (a : List (Option Int)) (s : AppState) (evs : List Ev) :
    (sendPhase (Except.ok resp) p a s evs).1.activeListeners =
      s.activeListeners := by
  by_cases h : 0 < resp.length <;> simp [sendPhase, h]

lemma sendPhase_not_mem_err (e : String) (p : String)
    (a : List (Option Int)) (s : AppState) (evs : List Ev) :
    p ∉ (sendPhase (Except.error e) p a s evs).1.activeListeners := by
  simp [sendPhase]

lemma sendPhase_calls (r : Except String (List Nat)) (p : String)
    (a : List (Option Int)) (s : AppState) (evs : List Ev) :
    callsOf (sendPhase r p a s evs).2 =
      callsOf evs ++ [BackendCall.sendHidCommand p a] := by
  cases r with
  | ok resp =>
    by_cases h : 0 < resp.length <;> simp [sendPhase, h]
  | error e => simp [sendPhase]

lemma sendPhase_trace (r : Except String (List Nat)) (p : String)
    (a : List (Option Int)) (s : AppState) (evs : List Ev) :
    ∃ tail, (sendPhase r p a s evs).2 = evs ++ tail ∧
      (sendPhase r p a s evs).1.log = s.log ++ logsOf tail := by
  cases r with
  | ok resp =>
    by_cases h : 0 < resp.length
    · exact ⟨[Ev.callE (BackendCall.sendHidCommand p a),
        Ev.logE LogType.info ("[RESULT] " ++ formatHex resp)],
        by simp [sendPhase, h], by simp [sendPhase, h]⟩
    · exact ⟨[Ev.callE (BackendCall.sendHidCommand p a)],
        by simp [sendPhase, h], by simp [sendPhase, h]⟩
  | error e =>
    exact ⟨[Ev.callE (BackendCall.sendHidCommand p a),
      Ev.logE LogType.error ("Communication Failure: " ++ e)],
      by simp [sendPhase], by simp [sendPhase, setDelete]⟩

lemma sendBtnClick_eq_mem (startRes : Except String Unit)
    (sendRes : Except String (List Nat)) (input : String) (s : AppState)
    (path : String) (hsel : s.selectedDevicePath = some path)
    (hcmd : trimStr input ≠ "") (hmem : path ∈ s.activeListeners) :
    sendBtnClick startRes sendRes input s =
      sendPhase sendRes path (cmdBytes (trimStr input))
        (addLog ("[OUT] " ++ trimStr input) LogType.outgoing s)
        [Ev.logE LogType.outgoing ("[OUT] " ++ trimStr input)] := by
  simp [sendBtnClick, hsel, hcmd, hmem]

lemma sendBtnClick_eq_new_ok (sendRes : Except String (List Nat))
    (input : String) (s : AppState) (path : String)
    (hsel : s.selectedDevicePath = some path)
    (hcmd : trimStr input ≠ "") (hmem : path ∉ s.activeListeners) :
    sendBtnClick (Except.ok ()) sendRes input s =
      sendPhase sendRes path (cmdBytes (trimStr input))
        (setAdd path (addLog "[SYS] Starting background worker for current OS..."
          LogType.info (addLog ("[OUT] " ++ trimStr input) LogType.outgoing s)))
        [Ev.logE LogType.outgoing ("[OUT] " ++ trimStr input),
         Ev.logE LogType.info "[SYS] Starting background worker for current OS...",
         Ev.callE (BackendCall.startListening path)] := by
  simp [sendBtnClick, hsel, hcmd, hmem]

lemma sendBtnClick_eq_new_err (e : String) (sendRes : Except String (List Nat))
    (input : String) (s : AppState) (path : String)
    (hsel : s.selectedDevicePath = some path)
    (hcmd : trimStr input ≠ "") (hmem : path ∉ s.activeListeners) :
    sendBtnClick (Except.error e) sendRes input s =
      (setDelete path (addLog ("Communication Failure: " ++ e) LogType.error
        (addLog "[SYS] Starting background worker for current OS..." LogType.info
          (addLog ("[OUT] " ++ trimStr input) LogType.outgoing s))),
       [Ev.logE LogType.outgoing ("[OUT] " ++ trimStr input),
        Ev.logE LogType.info "[SYS] Starting background worker for current OS...",
        Ev.callE (BackendCall.startListening path),
        Ev.logE LogType.error ("Communication Failure: " ++ e)]) := by
  simp [sendBtnClick, hsel, hcmd, hmem]

lemma sendBtnClick_selected (startRes : Except String Unit)
    (sendRes : Except String (List Nat)) (input : String) (s : AppState) :
    (sendBtnClick startRes sendRes input s).1.selectedDevicePath =
      s.selectedDevicePath := by
  cases h : s.selectedDevicePath with
  | none => simp [sendBtnClick, h]
  | some path =>
    by_cases hcmd : trimStr input = ""
    · simp [sendBtnClick, h, hcmd]
    · by_cases hmem : path ∈ s.activeListeners
      · simp [sendBtnClick, h, hcmd, hmem]
      · cases startRes <;> simp [sendBtnClick, h, hcmd, hmem]

lemma mem_start_calls_iff (startRes : Except String Unit)
    (sendRes : Except String (List Nat)) (input : String) (s : AppState)
    (path : String) (hsel : s.selectedDevicePath = some path)
    (hcmd : trimStr input ≠ "") :
    BackendCall.startListening path ∈
        callsOf (sendBtnClick startRes sendRes input s).2 ↔
      path ∉ s.activeListeners := by
  by_cases hmem : path ∈ s.activeListeners
  · rw [sendBtnClick_eq_mem startRes sendRes input s path hsel hcmd hmem,
      sendPhase_calls]
    simp [hmem]
  · cases startRes with
    | ok u =>
      cases u
      rw [sendBtnClick_eq_new_ok sendRes input s path hsel hcmd hmem,
        sendPhase_calls]
      simp [hmem]
    | error e =>
      rw [sendBtnClick_eq_new_err e sendRes input s path hsel hcmd hmem]
      simp [hmem]

lemma mem_active_after_ok_ok (resp : List Nat) (input : String) (s : AppState)
    (path : String) (hsel : s.selectedDevicePath = some path)
    (hcmd : trimStr input ≠ "") :
    path ∈ (sendBtnClick (Except.ok ()) (Except.ok resp) input
      s).1.activeListeners := by
  by_cases hmem : path ∈ s.activeListeners
  · rw [sendBtnClick_eq_mem (Except.ok ()) (Except.ok resp) input s path hsel
      hcmd hmem, sendPhase_activeListeners_ok]
    simpa using hmem
  · rw [sendBtnClick_eq_new_ok (Except.ok resp) input s path hsel hcmd hmem,
      sendPhase_activeListeners_ok]
    exact mem_setAdd path _

lemma not_mem_active_after_send_err (e : String) (input : String)
    (s : AppState) (path : String) (hsel : s.selectedDevicePath = some path)
    (hcmd : trimStr input ≠ "") :
    path ∉ (sendBtnClick (Except.ok ()) (Except.error e) input
      s).1.activeListeners := by
  by_cases hmem : path ∈ s.activeListeners
  · rw [sendBtnClick_eq_mem (Except.ok ()) (Except.error e) input s path hsel
      hcmd hmem]
    exact sendPhase_not_mem_err e path _ _ _
  · rw [sendBtnClick_eq_new_ok (Except.error e) input s path hsel hcmd hmem]
    exact sendPhase_not_mem_err e path _ _ _

lemma not_mem_active_after_start_err (e : String)
    (sendRes : Except String (List Nat)) (input : String) (s : AppState)
    (path : String) (hsel : s.selectedDevicePath = some path)
    (hcmd : trimStr input ≠ "") (hmem : path ∉ s.activeListeners) :
    path ∉ (sendBtnClick (Except.error e) sendRes input s).1.activeListeners := by
  rw [sendBtnClick_eq_new_err e sendRes input s path hsel hcmd hmem]
  exact not_mem_setDelete path _

/-- Claim C1: for every send dispatched to a selected path `P`,
`start_listening` is invoked iff `P` is not in the listener registry at
dispatch start; after a fully successful send `P` is registered, so a
second successful send does not re-invoke `start_listening`; and after a
failed command send the entry for `P` is removed, so the next send for
`P` re-invokes `start_listening`. -/
theorem claim1_listener_start_lifecycle (s : AppState) (path input : String)
    (startRes : Except String Unit) (sendRes : Except String (List Nat))
    (hsel : s.selectedDevicePath = some path) (hcmd : trimStr input ≠ "") :
    (BackendCall.startListening path ∈
        callsOf (sendBtnClick startRes sendRes input s).2 ↔
      path ∉ s.activeListeners)
    ∧ (∀ resp, path ∈
        (sendBtnClick (Except.ok ()) (Except.ok resp) input
          s).1.activeListeners)
    ∧ (∀ resp resp2 input2 startRes2, trimStr input2 ≠ "" →
        BackendCall.startListening path ∉
          callsOf (sendBtnClick startRes2 (Except.ok resp2) input2
            ((sendBtnClick (Except.ok ()) (Except.ok resp) input s).1)).2)
    ∧ (∀ e, path ∉
        (sendBtnClick (Except.ok ()) (Except.error e) input
          s).1.activeListeners)
    ∧ (∀ e input2 startRes2 sendRes2, trimStr input2 ≠ "" →
        BackendCall.startListening path ∈
          callsOf (sendBtnClick startRes2 sendRes2 input2
            ((sendBtnClick (Except.ok ()) (Except.error e) input s).1)).2) := by
  refine ⟨mem_start_calls_iff startRes sendRes input s path hsel hcmd,
    fun resp => mem_active_after_ok_ok resp input s path hsel hcmd,
    fun resp resp2 input2 startRes2 hcmd2 => ?_,
    fun e => not_mem_active_after_send_err e input s path hsel hcmd,
    fun e input2 startRes2 sendRes2 hcmd2 => ?_⟩
  · have hsel1 : (sendBtnClick (Except.ok ()) (Except.ok resp) input
        s).1.selectedDevicePath = some path := by
      rw [sendBtnClick_selected, hsel]
    rw [mem_start_calls_iff startRes2 (Except.ok resp2) input2 _ path hsel1
      hcmd2]
    intro hno
    exact hno (mem_active_after_ok_ok resp input s path hsel hcmd)
  · have hsel1 : (sendBtnClick (Except.ok ()) (Except.error e) input
        s).1.selectedDevicePath = some path := by
      rw [sendBtnClick_selected, hsel]
    rw [mem_start_calls_iff startRes2 sendRes2 input2 _ path hsel1 hcmd2]
    exact not_mem_active_after_send_err e input s path hsel hcmd

theorem claim1_witness :
    BackendCall.startListening "dev-1" ∈
      callsOf (sendBtnClick (Except.ok ()) (Except.ok [170]) "01 02"
        (AppState.mk [] (some "dev-1") [] [])).2 := by
  have h := claim1_listener_start_lifecycle
    (AppState.mk [] (some "dev-1") [] []) "dev-1" "01 02"
    (Except.ok ()) (Except.ok [170]) (by rfl) (by decide)
  exact h.1.mpr (by decide)

/-- Claim C2 (divergence record): with a device selected, the command text
`"ZZ"` is not rejected: the dispatch logs it as outgoing and invokes the
backend command send with the `NaN` placeholder (`none`) produced by
`parseInt("ZZ", 16)`; and a whitespace-only command returns silently,
appending no error entry. -/
theorem claim2_malformed_hex_reaches_backend :
    (sendBtnClick (Except.ok ()) (Except.ok []) "ZZ"
        (AppState.mk [] (some "dev-1") ["dev-1"] [])).2 =
      [Ev.logE LogType.outgoing "[OUT] ZZ",
       Ev.callE (BackendCall.sendHidCommand "dev-1" [none])]
    ∧ parseIntHex "ZZ" = none
    ∧ sendBtnClick (Except.ok ()) (Except.ok []) "   "
        (AppState.mk [] (some "dev-1") ["dev-1"] []) =
      (AppState.mk [] (some "dev-1") ["dev-1"] [], []) := by
  decide

/-- Claim C3 (divergence record): a successful rescan returning an empty
catalog leaves the previously selected path in place, so the selection no
longer references any descriptor of the current catalog. -/
theorem claim3_stale_selection_survives_rescan :
    (scanBtnClick (Except.ok [])
        (AppState.mk
          [HidDevice.mk "dev-1" "0x2dbf" "0x5038" (some "Keystone") none 65280 1]
          (some "dev-1") [] [])).selectedDevicePath = some "dev-1"
    ∧ (scanBtnClick (Except.ok [])
        (AppState.mk
          [HidDevice.mk "dev-1" "0x2dbf" "0x5038" (some "Keystone") none 65280 1]
          (some "dev-1") [] [])).scannedDevices = [] := by
  decide

/-- Claim C4: after a successful scan the catalog equals exactly the
descriptors that scan returned, independent of whatever the catalog held
before (wholesale replacement, no merging). -/
theorem claim4_catalog_wholesale_replacement (s : AppState)
    (d1 d2 : List HidDevice) :
    (scanBtnClick (Except.ok d2)
        (scanBtnClick (Except.ok d1) s)).scannedDevices = d2
    ∧ ∀ s2 : AppState, (scanBtnClick (Except.ok d2) s2).scannedDevices = d2 := by
  constructor
  · simp [scanBtnClick]
  · intro s2
    simp [scanBtnClick]

/-- Claim C5: a failed scan leaves the catalog, selection and listener
registry unchanged, appends only the scan-attempt info entry and one error
entry, and the session stays usable: a later successful scan still
replaces the catalog. -/
theorem claim5_scan_failure_preserves_catalog (s : AppState) (e : String) :
    (scanBtnClick (Except.error e) s).scannedDevices = s.scannedDevices
    ∧ (scanBtnClick (Except.error e) s).selectedDevicePath =
        s.selectedDevicePath
    ∧ (scanBtnClick (Except.error e) s).activeListeners = s.activeListeners
    ∧ (scanBtnClick (Except.error e) s).log =
        s.log ++ [LogEntry.mk LogType.info "Scanning HID bus...",
          LogEntry.mk LogType.error ("Scan Error: " ++ e)]
    ∧ ∀ devs, (scanBtnClick (Except.ok devs)
        (scanBtnClick (Except.error e) s)).scannedDevices = devs := by
  refine ⟨rfl, rfl, rfl, by simp [scanBtnClick], fun devs => by simp [scanBtnClick]⟩

/-- Claim C6 counterexample: clicking a device item whose path is absent
from the catalog still changes the selection, contradicting the claimed
no-op behavior for absent paths. -/
theorem claim6_absent_path_changes_selection :
    (deviceItemClick "ghost"
        (AppState.mk
          [HidDevice.mk "dev-1" "0x2dbf" "0x5038" (some "Keystone") none 65280 1]
          (some "dev-1") [] [])).selectedDevicePath = some "ghost"
    ∧ (AppState.mk
          [HidDevice.mk "dev-1" "0x2dbf" "0x5038" (some "Keystone") none 65280 1]
          (some "dev-1") [] []).selectedDevicePath = some "dev-1"
    ∧ ∀ d ∈ (AppState.mk
          [HidDevice.mk "dev-1" "0x2dbf" "0x5038" (some "Keystone") none 65280 1]
          (some "dev-1") [] []).scannedDevices, d.path ≠ "ghost" := by
  decide

/-- Claim C6 amended: the select handler sets the selection to the clicked
path unconditionally (clearing it only for the empty path), whether or not
the path is present in the catalog; the device list itself is unchanged;
and the selection info log entry is appended iff the path is nonempty and
present in the catalog, in which case exactly one info entry naming the
found device's interface number is appended. -/
theorem claim6_select_sets_selection_unconditionally (s : AppState)
    (path : String) :
    (deviceItemClick path s).selectedDevicePath =
        (if path = "" then none else some path)
    ∧ (deviceItemClick path s).scannedDevices = s.scannedDevices
    ∧ ((deviceItemClick path s).log ≠ s.log ↔
        (path ≠ "" ∧ ∃ d ∈ s.scannedDevices, d.path = path))
    ∧ ((deviceItemClick path s).log = s.log ∨
        ∃ d ∈ s.scannedDevices, d.path = path ∧
          (deviceItemClick path s).log = s.log ++
            [LogEntry.mk LogType.info
              ("Device selected. Interface: " ++ toString d.interface_number)]) := by
  by_cases hp : path = ""
  · subst hp
    have hfind : s.scannedDevices.find? (fun _ => false) = none := by
      rw [List.find?_eq_none]
      intro x hx
      simp
    refine ⟨?_, ?_, ?_, Or.inl ?_⟩ <;> simp [deviceItemClick, hfind]
  · have hiff : ∀ d : HidDevice, (path == d.path) = true ↔ d.path = path := by
      intro d
      rw [beq_iff_eq]
      exact eq_comm
    cases hfind : s.scannedDevices.find? (fun d => path == d.path) with
    | none =>
      have habs : ¬ ∃ d ∈ s.scannedDevices, d.path = path := by
        rintro ⟨d, hd, hdp⟩
        exact absurd ((hiff d).mpr hdp)
          (by simpa using List.find?_eq_none.mp hfind d hd)
      refine ⟨?_, ?_, ?_, Or.inl ?_⟩
      · simp [deviceItemClick, hp, hfind]
      · simp [deviceItemClick, hp, hfind]
      · constructor
        · intro hlog
          exact (hlog (by simp [deviceItemClick, hp, hfind])).elim
        · rintro ⟨-, hex⟩
          exact absurd hex habs
      · simp [deviceItemClick, hp, hfind]
    | some d =>
      have hd_mem : d ∈ s.scannedDevices := List.mem_of_find?_eq_some hfind
      have hd_path : d.path = path := by
        have hpd := List.find?_some hfind
        exact (hiff d).mp (by simpa using hpd)
      refine ⟨?_, ?_, ?_, Or.inr ⟨d, hd_mem, hd_path, ?_⟩⟩
      · simp [deviceItemClick, hp, hfind]
      · simp [deviceItemClick, hp, hfind]
      · constructor
        · intro _
          exact ⟨hp, d, hd_mem, hd_path⟩
        · intro _
          simp [deviceItemClick, hp, hfind]
      · simp [deviceItemClick, hp, hfind]

/-- Claim C7: encoding splits the command text on whitespace runs and
parses each token base-16: the default command `"00 C0 0A 00 00"` encodes
to `[0x00, 0xC0, 0x0A, 0x00, 0x00]`, and a dispatch of that text hands
the backend exactly those bytes. -/
theorem claim7_encode_example :
    cmdBytes (trimStr "00 C0 0A 00 00") =
      [some 0, some 192, some 10, some 0, some 0]
    ∧ callsOf (sendBtnClick (Except.ok ()) (Except.ok []) "00 C0 0A 00 00"
        (AppState.mk [] (some "dev-1") ["dev-1"] [])).2 =
      [BackendCall.sendHidCommand "dev-1"
        [some 0, some 192, some 10, some 0, some 0]] := by
  decide

/-- Claim C8: when the listener-start invoke fails, the dispatch makes no
command-send call (the only backend call of the dispatch is the listener
start), the failure is logged as an error entry, and the registry holds no
entry for the path, so any later dispatch re-requests the listener. -/
theorem claim8_listener_start_failure_aborts (s : AppState)
    (path input e : String) (sendRes : Except String (List Nat))
    (hsel : s.selectedDevicePath = some path) (hcmd : trimStr input ≠ "")
    (hmem : path ∉ s.activeListeners) :
    callsOf (sendBtnClick (Except.error e) sendRes input s).2 =
      [BackendCall.startListening path]
    ∧ path ∉ (sendBtnClick (Except.error e) sendRes input
        s).1.activeListeners
    ∧ LogEntry.mk LogType.error ("Communication Failure: " ++ e) ∈
        (sendBtnClick (Except.error e) sendRes input s).1.log
    ∧ ∀ input2 startRes2 sendRes2, trimStr input2 ≠ "" →
        BackendCall.startListening path ∈
          callsOf (sendBtnClick startRes2 sendRes2 input2
            ((sendBtnClick (Except.error e) sendRes input s).1)).2 := by
  refine ⟨?_, not_mem_active_after_start_err e sendRes input s path hsel hcmd
    hmem, ?_, fun input2 startRes2 sendRes2 hcmd2 => ?_⟩
  · rw [sendBtnClick_eq_new_err e sendRes input s path hsel hcmd hmem]
    simp
  · rw [sendBtnClick_eq_new_err e sendRes input s path hsel hcmd hmem]
    simp
  · have hsel1 : (sendBtnClick (Except.error e) sendRes input
        s).1.selectedDevicePath = some path := by
      rw [sendBtnClick_selected, hsel]
    rw [mem_start_calls_iff startRes2 sendRes2 input2 _ path hsel1 hcmd2]
    exact not_mem_active_after_start_err e sendRes input s path hsel hcmd hmem

theorem claim8_witness :
    callsOf (sendBtnClick (Except.error "boom") (Except.ok []) "01 02"
        (AppState.mk [] (some "dev-1") [] [])).2 =
      [BackendCall.startListening "dev-1"] :=
  (claim8_listener_start_failure_aborts
    (AppState.mk [] (some "dev-1") [] []) "dev-1" "01 02" "boom"
    (Except.ok []) (by rfl) (by decide) (by decide)).1

set_option maxRecDepth 4096 in
/-- Claim C9: each frame pushed on the `hid-data` channel appends exactly
one `incoming` entry whose message carries the payload rendered as
upper-case two-digit hexadecimal pairs joined by single spaces; in
particular `[0, 192, 10]` renders as `"00 C0 0A"`. -/
theorem claim9_incoming_frame_logged (s : AppState) (payload : List Nat) :
    (hidDataHandler payload s).log = s.log ++
      [LogEntry.mk LogType.incoming ("[ASYNC IN] " ++ formatHex payload)]
    ∧ formatHex payload = joinSpace (payload.map byteHexUpper)
    ∧ (∀ b, b < 256 → (byteHexUpper b).length = 2 ∧
        ∀ c ∈ (byteHexUpper b).data, c.isDigit ∨ ('A' ≤ c ∧ c ≤ 'F'))
    ∧ formatHex [0, 192, 10] = "00 C0 0A" := by
  refine ⟨by simp [hidDataHandler], rfl, by decide, by decide⟩

theorem claim9_witness :
    formatHex [0, 192, 10] = "00 C0 0A" :=
  (claim9_incoming_frame_logged (AppState.mk [] none [] []) [0, 192, 10]).2.2.2

/-- Claim C10: with a device selected and non-whitespace command text, the
dispatch trace starts with the `outgoing` entry carrying the trimmed
command text — so it is recorded before any backend call — and that entry
sits in the final log right after the prior entries under every backend
outcome, including listener-start and command-send failures. -/
theorem claim10_outgoing_logged_first (s : AppState) (path input : String)
    (startRes : Except String Unit) (sendRes : Except String (List Nat))
    (hsel : s.selectedDevicePath = some path) (hcmd : trimStr input ≠ "") :
    ∃ rest,
      (sendBtnClick startRes sendRes input s).2 =
        Ev.logE LogType.outgoing ("[OUT] " ++ trimStr input) :: rest
      ∧ (sendBtnClick startRes sendRes input s).1.log =
        s.log ++ LogEntry.mk LogType.outgoing ("[OUT] " ++ trimStr input) ::
          logsOf rest := by
  by_cases hmem : path ∈ s.activeListeners
  · rw [sendBtnClick_eq_mem startRes sendRes input s path hsel hcmd hmem]
    obtain ⟨tail, h2, h1⟩ := sendPhase_trace sendRes path
      (cmdBytes (trimStr input))
      (addLog ("[OUT] " ++ trimStr input) LogType.outgoing s)
      [Ev.logE LogType.outgoing ("[OUT] " ++ trimStr input)]
    refine ⟨tail, ?_, ?_⟩
    · simpa using h2
    · rw [h1]
      simp
  · cases startRes with
    | ok u =>
      cases u
      rw [sendBtnClick_eq_new_ok sendRes input s path hsel hcmd hmem]
      obtain ⟨tail, h2, h1⟩ := sendPhase_trace sendRes path
        (cmdBytes (trimStr input))
        (setAdd path (addLog "[SYS] Starting background worker for current OS..."
          LogType.info (addLog ("[OUT] " ++ trimStr input) LogType.outgoing s)))
        [Ev.logE LogType.outgoing ("[OUT] " ++ trimStr input),
         Ev.logE LogType.info "[SYS] Starting background worker for current OS...",
         Ev.callE (BackendCall.startListening path)]
      refine ⟨[Ev.logE LogType.info
          "[SYS] Starting background worker for current OS...",
        Ev.callE (BackendCall.startListening path)] ++ tail, ?_, ?_⟩
      · rw [h2]
        simp
      · rw [h1]
        simp
    | error e =>
      rw [sendBtnClick_eq_new_err e sendRes input s path hsel hcmd hmem]
      refine ⟨[Ev.logE LogType.info
          "[SYS] Starting background worker for current OS...",
        Ev.callE (BackendCall.startListening path),
        Ev.logE LogType.error ("Communication Failure: " ++ e)], by simp, by simp⟩

theorem claim10_witness :
    ∃ rest,
      (sendBtnClick (Except.ok ()) (Except.error "io failed") "01 02"
          (AppState.mk [] (some "dev-1") [] [])).2 =
        Ev.logE LogType.outgoing ("[OUT] " ++ trimStr "01 02") :: rest
      ∧ (sendBtnClick (Except.ok ()) (Except.error "io failed") "01 02"
          (AppState.mk [] (some "dev-1") [] [])).1.log =
        (AppState.mk [] (some "dev-1") [] ([] : List LogEntry)).log ++
          LogEntry.mk LogType.outgoing ("[OUT] " ++ trimStr "01 02") ::
            logsOf rest :=
  claim10_outgoing_logged_first (AppState.mk [] (some "dev-1") [] [])
    "dev-1" "01 02" (Except.ok ()) (Except.error "io failed")
    (by rfl) (by decide)
